import Mathlib

/-!
Shallow embedding of the `no-useless-length-check` lint rule
(`crates/oxc_linter/src/rules/unicorn/no_useless_length_check.rs`).

The expression tree mirrors the parsed AST the rule consumes: binary
comparisons, call expressions, logical combinations, member accesses,
optional-chain wrappers (`ChainExpression`, the parser's representation of
any `?.` access), parenthesized expressions, literals carrying their raw
source text, and an opaque catch-all for every other node kind.
-/

structure Span where
  lo : Nat
  hi : Nat
deriving DecidableEq, Repr, Inhabited

inductive BinaryOperator where
  | equality
  | inequality
  | strictEquality
  | strictInequality
  | lessThan
  | lessEqualThan
  | greaterThan
  | greaterEqualThan
  | addition
deriving DecidableEq, Repr

inductive LogicalOperator where
  | and
  | or
  | coalesce
deriving DecidableEq, Repr

inductive Expression where
  | identifier (span : Span) (name : String)
  | numericLiteral (span : Span) (raw : String)
  | stringLiteral (span : Span) (raw : String)
  | binary (span : Span) (left : Expression) (op : BinaryOperator) (right : Expression)
  | logical (span : Span) (left : Expression) (op : LogicalOperator) (right : Expression)
  | call (span : Span) (callee : Expression) (optional : Bool)
  | staticMember (span : Span) (object : Expression) (property : String) (optional : Bool)
  | computedMember (span : Span) (object : Expression) (property : Expression) (optional : Bool)
  | chain (span : Span) (inner : Expression)
  | paren (span : Span) (inner : Expression)
  | other (span : Span)
deriving DecidableEq, Repr

/-- The member-expression view: the two member-access shapes of
`oxc_ast::ast::MemberExpression` that the rule distinguishes. -/
inductive MemberExpression where
  | staticMember (span : Span) (object : Expression) (property : String) (optional : Bool)
  | computedMember (span : Span) (object : Expression) (property : Expression) (optional : Bool)
deriving DecidableEq, Repr

/-- View of an expression as a member expression, when it is one
(`Expression::MemberExpression` pattern match). -/
def Expression.toMemberExpression : Expression → Option MemberExpression
  | .staticMember s o p opt => some (.staticMember s o p opt)
  | .computedMember s o p opt => some (.computedMember s o p opt)
  | _ => none

/-- Modelled from the spec: parenthesis-stripping primitive
(`Expression::without_parenthesized`), removing every redundant
parenthesization wrapper. -/
def Expression.without_parenthesized : Expression → Expression
  | .paren _ inner => inner.without_parenthesized
  | e => e

/-- Modelled from the spec: `Expression::get_inner_expression`, the
parenthesis-stripping applied to a comparison's left side before its shape
is inspected. -/
def Expression.get_inner_expression : Expression → Expression
  | .paren _ inner => inner.get_inner_expression
  | e => e

/-- Modelled from the spec: `Expression::get_identifier_reference`, which
yields the identifier's name exactly when the expression is an identifier
reference. -/
def Expression.get_identifier_reference : Expression → Option String
  | .identifier _ n => some n
  | _ => none

/-- Modelled from the spec: `Expression::is_specific_id`, true exactly when
the expression is an identifier with the given name. -/
def Expression.is_specific_id (e : Expression) (name : String) : Bool :=
  match e with
  | .identifier _ n => n == name
  | _ => false

/-- Modelled from the spec: `Expression::get_member_expr`, the
member-access view of a call's callee after parenthesis-stripping; an
optional-chain wrapper is not a plain property access and yields none. -/
def Expression.get_member_expr (e : Expression) : Option MemberExpression :=
  e.get_inner_expression.toMemberExpression

/-- Modelled from the spec: `Expression::is_raw`, comparing the raw source
text of a literal (a string literal's raw text includes its quotes, so
`"0"` is the three characters quote, zero, quote). -/
def Expression.is_raw (e : Expression) (raw : String) : Bool :=
  match e with
  | .numericLiteral _ r => r == raw
  | .stringLiteral _ r => r == raw
  | _ => false

def MemberExpression.object : MemberExpression → Expression
  | .staticMember _ o _ _ => o
  | .computedMember _ o _ _ => o

/-- Modelled from the spec: `MemberExpression::is_specific_member_access`,
true exactly when the access is a non-optional static property access named
exactly `property` on the identifier `object`. -/
def MemberExpression.is_specific_member_access
    (m : MemberExpression) (object property : String) : Bool :=
  match m with
  | .staticMember _ obj prop opt => obj.is_specific_id object && prop == property && !opt
  | .computedMember _ _ _ _ => false

/-- The diagnostics of `NoUselessLengthCheckDiagnostic`, each carrying the
single labelled span. -/
inductive NoUselessLengthCheckDiagnostic where
  | Some (span : Span)
  | Every (span : Span)
deriving DecidableEq, Repr

def NoUselessLengthCheckDiagnostic.span : NoUselessLengthCheckDiagnostic → Span
  | .Some s => s
  | .Every s => s

structure ConditionDTO where
  property_name : String
  binary_operators : List BinaryOperator

/-- `get_static_member_property_name` from the rule source: the property
name of a static member access, given an optional member expression. -/
def get_static_member_property_name : Option MemberExpression → Option String
  | some (.staticMember _ _ name _) => some name
  | _ => none

/-- The `every_condition` value built at the top of `is_useless_check`
(source lines 77-80). -/
def every_condition : ConditionDTO :=
  { property_name := "every"
    binary_operators := [BinaryOperator.strictEquality] }

/-- The `some_condition` value built at the top of `is_useless_check`
(source lines 81-84). -/
def some_condition : ConditionDTO :=
  { property_name := "some"
    binary_operators := [BinaryOperator.strictInequality, BinaryOperator.greaterThan] }

/-- The `active_condition` selection of `is_useless_check` (source lines
87-93): the or-operator activates the every-rule, any other operator the
some-rule. -/
def active_condition (operator : LogicalOperator) : ConditionDTO :=
  if operator == LogicalOperator.or then every_condition else some_condition

/-- The left-operand match block of `is_useless_check` (source lines
97-121): classify the left operand, producing the flag `l`, the captured
`array_name`, and the recorded binary/call expression spans. A Rust
early `return None` is the `none` result. -/
def is_useless_check_left (active_condition : ConditionDTO) (left : Expression) :
    Option (Bool × String × Option Span × Option Span) :=
  match left.without_parenthesized with
  | .binary span bl bop br =>
    match bl.get_inner_expression.toMemberExpression with
    | some left_expr =>
      match left_expr.object.get_identifier_reference with
      | some array_name =>
        some (active_condition.binary_operators.contains bop
                && left_expr.is_specific_member_access array_name "length"
                && br.is_raw "0",
              array_name, some span, none)
      | none => none
    | none => none
  | .call span callee opt =>
    match callee.get_member_expr with
    | some m =>
      match m.object.get_identifier_reference with
      | some array_name =>
        match get_static_member_property_name callee.get_member_expr with
        | some property_name =>
          some (property_name == active_condition.property_name && !opt,
                array_name, none, some span)
        | none => none
      | none => none
    | none => none
  | _ => some (false, "", none, none)

/-- The right-operand match block of `is_useless_check` (source lines
123-154): classify the right operand against the state captured from the
left operand, producing the flag `r` and the (possibly updated) binary
expression span. A Rust early `return None` is the `none` result. -/
def is_useless_check_right (active_condition : ConditionDTO) (array_name : String)
    (binary_expression_span call_expression_span : Option Span) (right : Expression) :
    Option (Bool × Option Span) :=
  match right.without_parenthesized with
  | .binary span bl bop br =>
    match bl.get_inner_expression.toMemberExpression with
    | some left_expr =>
      match left_expr.object.get_identifier_reference with
      | some ident_name =>
        if binary_expression_span.isSome then none
        else
          some (active_condition.binary_operators.contains bop
                  && left_expr.is_specific_member_access array_name "length"
                  && br.is_raw "0"
                  && ident_name == array_name,
                some span)
      | none => none
    | none => none
  | .call _span callee opt =>
    match callee.get_member_expr with
    | some m =>
      match m.object.get_identifier_reference with
      | some obj_name =>
        if call_expression_span.isSome then none
        else
          match get_static_member_property_name callee.get_member_expr with
          | some property_name =>
            some (property_name == active_condition.property_name && !opt
                    && obj_name == array_name,
                  binary_expression_span)
          | none => none
      | none => none
    | none => none
  | _ => some (false, binary_expression_span)

/-- `is_useless_check` from the rule source (lines 72-165): the pair
matcher. Selects the active condition from the logical operator, classifies
both operands, and on success emits the diagnostic anchored at the recorded
binary-expression span. -/
def is_useless_check (left right : Expression) (operator : LogicalOperator) :
    Option NoUselessLengthCheckDiagnostic :=
  match is_useless_check_left (active_condition operator) left with
  | none => none
  | some (l, array_name, binary_expression_span, call_expression_span) =>
    match is_useless_check_right (active_condition operator) array_name
        binary_expression_span call_expression_span right with
    | none => none
    | some (r, binary_expression_span) =>
      if l && r then
        match binary_expression_span with
        | none => none
        | some bspan =>
          some (if (active_condition operator).property_name == "every" then
                  NoUselessLengthCheckDiagnostic.Every bspan
                else
                  NoUselessLengthCheckDiagnostic.Some bspan)
      else none

/-- One side of `flat_logical_expression` (source lines 186-206): `orig` is
the operand as it appears in the tree (returned as the leaf, parentheses
kept), `side` is its progressively parenthesis-stripped form. A stripped
side that is a logical expression with the same operator is recursively
flattened; anything else is one opaque leaf. -/
def flat_side (op : LogicalOperator) (orig side : Expression) : List Expression :=
  match side with
  | .paren _ inner => flat_side op orig inner
  | .logical _ l o r =>
    if o == op then flat_side op l l ++ flat_side op r r else [orig]
  | _ => [orig]

/-- `flat_logical_expression` from the rule source (lines 185-209): the
chain flattener, concatenating the flattened left and right sides. -/
def flat_logical_expression (left : Expression) (op : LogicalOperator)
    (right : Expression) : List Expression :=
  flat_side op left left ++ flat_side op right right

/-- `NoUselessLengthCheck::run` from the rule source (lines 167-183): for a
logical-expression node whose operator is `&&` or `||`, flatten the chain
and collect the diagnostic of every matching adjacent pair, in order; any
other node kind produces nothing. -/
def NoUselessLengthCheck.run (node : Expression) : List NoUselessLengthCheckDiagnostic :=
  match node with
  | .logical _ left op right =>
    if [LogicalOperator.and, LogicalOperator.or].contains op then
      let flat_expr := flat_logical_expression left op right
      (List.range (flat_expr.length - 1)).filterMap (fun i =>
        is_useless_check (flat_expr.getD i (Expression.other default))
          (flat_expr.getD (i + 1) (Expression.other default)) op)
    else []
  | _ => []

/-!
Sample concrete AST nodes, with spans laid out as a parser would assign
them over the quoted source text.
-/

/-- `array.length === 0 || array.every(Boolean)`. -/
def orEveryNode : Expression :=
  Expression.logical ⟨0, 42⟩
    (Expression.binary ⟨0, 18⟩
      (Expression.staticMember ⟨0, 12⟩ (Expression.identifier ⟨0, 5⟩ "array") "length" false)
      BinaryOperator.strictEquality
      (Expression.numericLiteral ⟨17, 18⟩ "0"))
    LogicalOperator.or
    (Expression.call ⟨22, 42⟩
      (Expression.staticMember ⟨22, 33⟩ (Expression.identifier ⟨22, 27⟩ "array") "every" false)
      false)

/-- `array.length > 0 && array.some(Boolean)`. -/
def andSomeNode : Expression :=
  Expression.logical ⟨0, 41⟩
    (Expression.binary ⟨0, 16⟩
      (Expression.staticMember ⟨0, 12⟩ (Expression.identifier ⟨0, 5⟩ "array") "length" false)
      BinaryOperator.greaterThan
      (Expression.numericLiteral ⟨15, 16⟩ "0"))
    LogicalOperator.and
    (Expression.call ⟨20, 41⟩
      (Expression.staticMember ⟨20, 30⟩ (Expression.identifier ⟨20, 25⟩ "array") "some" false)
      false)

/-- `array.every(Boolean) || array.length === 0` (reverse order). -/
def orEveryReversedNode : Expression :=
  Expression.logical ⟨0, 42⟩
    (Expression.call ⟨0, 20⟩
      (Expression.staticMember ⟨0, 11⟩ (Expression.identifier ⟨0, 5⟩ "array") "every" false)
      false)
    LogicalOperator.or
    (Expression.binary ⟨24, 42⟩
      (Expression.staticMember ⟨24, 36⟩ (Expression.identifier ⟨24, 29⟩ "array") "length" false)
      BinaryOperator.strictEquality
      (Expression.numericLiteral ⟨41, 42⟩ "0"))

/-- `array.every(Boolean) || array.length === 0 || array.every(Boolean)`,
parsed left-associated; comparison span is `⟨24, 41⟩`. -/
def threeOperandOrChain : Expression :=
  Expression.logical ⟨0, 65⟩
    (Expression.logical ⟨0, 41⟩
      (Expression.call ⟨0, 20⟩
        (Expression.staticMember ⟨0, 11⟩ (Expression.identifier ⟨0, 5⟩ "array") "every" false)
        false)
      LogicalOperator.or
      (Expression.binary ⟨24, 41⟩
        (Expression.staticMember ⟨24, 36⟩ (Expression.identifier ⟨24, 29⟩ "array") "length" false)
        BinaryOperator.strictEquality
        (Expression.numericLiteral ⟨40, 41⟩ "0")))
    LogicalOperator.or
    (Expression.call ⟨45, 65⟩
      (Expression.staticMember ⟨45, 56⟩ (Expression.identifier ⟨45, 50⟩ "array") "every" false)
      false)

/-- Same chain shape as `threeOperandOrChain` with different concrete
spans (comparison span `⟨124, 141⟩`). -/
def threeOperandOrChainB : Expression :=
  Expression.logical ⟨100, 165⟩
    (Expression.logical ⟨100, 141⟩
      (Expression.call ⟨100, 120⟩
        (Expression.staticMember ⟨100, 111⟩ (Expression.identifier ⟨100, 105⟩ "array") "every"
          false)
        false)
      LogicalOperator.or
      (Expression.binary ⟨124, 141⟩
        (Expression.staticMember ⟨124, 136⟩ (Expression.identifier ⟨124, 129⟩ "array") "length"
          false)
        BinaryOperator.strictEquality
        (Expression.numericLiteral ⟨140, 141⟩ "0")))
    LogicalOperator.or
    (Expression.call ⟨145, 165⟩
      (Expression.staticMember ⟨145, 156⟩ (Expression.identifier ⟨145, 150⟩ "array") "every"
        false)
      false)

def sampleLeftOperand : Expression := Expression.identifier ⟨0, 3⟩ "foo"

def sampleRightOperand : Expression := Expression.identifier ⟨7, 10⟩ "bar"

def mismatchComparison : Expression :=
  Expression.binary ⟨0, 19⟩
    (Expression.staticMember ⟨0, 13⟩ (Expression.identifier ⟨0, 6⟩ "array1") "length" false)
    BinaryOperator.strictEquality (Expression.numericLiteral ⟨18, 19⟩ "0")

def mismatchCall : Expression :=
  Expression.call ⟨23, 44⟩
    (Expression.staticMember ⟨23, 35⟩ (Expression.identifier ⟨23, 29⟩ "array2") "every" false)
    false

def oneComparison : Expression :=
  Expression.binary ⟨0, 18⟩
    (Expression.staticMember ⟨0, 12⟩ (Expression.identifier ⟨0, 5⟩ "array") "length" false)
    BinaryOperator.strictEquality (Expression.numericLiteral ⟨17, 18⟩ "1")

def everyCallOperand : Expression :=
  Expression.call ⟨22, 42⟩
    (Expression.staticMember ⟨22, 33⟩ (Expression.identifier ⟨22, 27⟩ "array") "every" false)
    false

def lengthComparisonNode (bop : BinaryOperator) : Expression :=
  Expression.binary ⟨0, 18⟩
    (Expression.staticMember ⟨0, 12⟩ (Expression.identifier ⟨0, 5⟩ "array") "length" false)
    bop (Expression.numericLiteral ⟨17, 18⟩ "0")

def quantifierCallNode (meth : String) : Expression :=
  Expression.call ⟨22, 42⟩
    (Expression.staticMember ⟨22, 33⟩ (Expression.identifier ⟨22, 27⟩ "array") meth false)
    false

def combinationNode (op : LogicalOperator) (bop : BinaryOperator) (meth : String) :
    Expression :=
  Expression.logical ⟨0, 42⟩ (lengthComparisonNode bop) op (quantifierCallNode meth)

/-!
Theorems: regression checks mirroring the rule source test suite, helper
lemmas, and the claim theorems.
-/

theorem run_fail_case_or_every : NoUselessLengthCheck.run orEveryNode =
    [NoUselessLengthCheckDiagnostic.Every ⟨0, 18⟩] := by decide

theorem run_fail_case_and_some : NoUselessLengthCheck.run andSomeNode =
    [NoUselessLengthCheckDiagnostic.Some ⟨0, 16⟩] := by decide

theorem run_fail_case_reverse_or : NoUselessLengthCheck.run orEveryReversedNode =
    [NoUselessLengthCheckDiagnostic.Every ⟨24, 42⟩] := by decide

/-- `array.length === 0 && array.every(Boolean)` should pass (no diagnostic). -/
theorem run_pass_case_and_every : NoUselessLengthCheck.run
    (Expression.logical ⟨0, 42⟩
      (Expression.binary ⟨0, 18⟩
        (Expression.staticMember ⟨0, 12⟩ (Expression.identifier ⟨0, 5⟩ "array") "length" false)
        BinaryOperator.strictEquality
        (Expression.numericLiteral ⟨17, 18⟩ "0"))
      LogicalOperator.and
      (Expression.call ⟨22, 42⟩
        (Expression.staticMember ⟨22, 33⟩ (Expression.identifier ⟨22, 27⟩ "array") "every" false)
        false)) = [] := by decide

/-!
Helper lemmas shared by the claim theorems.
-/

/-- The flattened form of one operand side is never empty. -/
theorem flat_side_length_pos (op : LogicalOperator) :
    ∀ orig side : Expression, 0 < (flat_side op orig side).length := by
  intro orig side
  induction side generalizing orig with
  | paren s inner ih => simpa [flat_side] using ih orig
  | logical s l o r ihl ihr =>
    by_cases h : (o == op) = true
    · simp only [flat_side, h, if_true, List.length_append]
      exact Nat.lt_of_lt_of_le (ihl l) (Nat.le_add_right _ _)
    · simp [flat_side, h]
  | _ => simp [flat_side]

/-- If the right operand always classifies with flag `false` (or aborts),
the pair matcher yields no diagnostic whatever the left operand is. -/
theorem is_useless_check_none_of_right (right : Expression)
    (hr : ∀ (active : ConditionDTO) (a : String) (bsp csp : Option Span),
      (is_useless_check_right active a bsp csp right).elim True (fun p => p.1 = false))
    (left : Expression) (op : LogicalOperator) :
    is_useless_check left right op = none := by
  unfold is_useless_check
  cases hl : is_useless_check_left (active_condition op) left with
  | none => rfl
  | some st =>
    obtain ⟨l, a, bsp, csp⟩ := st
    have := hr (active_condition op) a bsp csp
    cases hrr : is_useless_check_right (active_condition op) a bsp csp right with
    | none => simp [hrr]
    | some pr =>
      obtain ⟨r, bsp2⟩ := pr
      rw [hrr] at this
      simp only [Option.elim] at this
      simp [hrr, this]

/-- If the left operand always classifies with flag `false` (or aborts),
the pair matcher yields no diagnostic whatever the right operand is. -/
theorem is_useless_check_none_of_left (left : Expression)
    (hl : ∀ active : ConditionDTO,
      (is_useless_check_left active left).elim True (fun p => p.1 = false))
    (right : Expression) (op : LogicalOperator) :
    is_useless_check left right op = none := by
  unfold is_useless_check
  cases hll : is_useless_check_left (active_condition op) left with
  | none => rfl
  | some st =>
    obtain ⟨l, a, bsp, csp⟩ := st
    have := hl (active_condition op)
    rw [hll] at this
    simp only [Option.elim] at this
    subst this
    cases hrr : is_useless_check_right (active_condition op) a bsp csp right with
    | none => simp [hrr]
    | some pr =>
      obtain ⟨r, bsp2⟩ := pr
      simp [hrr]

/-!
Claim theorems.
-/

/-- C1: for the disjunction whose left operand is the comparison
`array.length === 0` and whose right operand is the call
`array.every(Boolean)`, the rule emits exactly one diagnostic, of kind
Every, whose span is the comparison operand's span `s1` (not the quantifier
call's span `s5`). -/
theorem C1_or_every_single_diagnostic_at_comparison_span
    (s0 s1 s2 s3 s4 s5 s6 s7 : Span) :
    NoUselessLengthCheck.run
      (Expression.logical s0
        (Expression.binary s1
          (Expression.staticMember s2 (Expression.identifier s3 "array") "length" false)
          BinaryOperator.strictEquality
          (Expression.numericLiteral s4 "0"))
        LogicalOperator.or
        (Expression.call s5
          (Expression.staticMember s6 (Expression.identifier s7 "array") "every" false)
          false))
      = [NoUselessLengthCheckDiagnostic.Every s1] := rfl

/-- C2 counterexample: the single pair-matcher invocation on the pair whose
left operand is the quantifier call `array.every(Boolean)` and whose right
operand is the comparison `array.length === 0`, under the or-operator, does
produce a diagnostic, contrary to the claim that it produces none. -/
theorem C2_counterexample_reverse_pair_fires :
    is_useless_check
      (Expression.call ⟨0, 20⟩
        (Expression.staticMember ⟨0, 11⟩ (Expression.identifier ⟨0, 5⟩ "array") "every" false)
        false)
      (Expression.binary ⟨24, 42⟩
        (Expression.staticMember ⟨24, 36⟩ (Expression.identifier ⟨24, 29⟩ "array") "length" false)
        BinaryOperator.strictEquality
        (Expression.numericLiteral ⟨41, 42⟩ "0"))
      LogicalOperator.or
      = some (NoUselessLengthCheckDiagnostic.Every ⟨24, 42⟩) := by decide

/-- C2 amended: within a single invocation of the pair matcher, each
operand is matched against both shapes; a pair whose left operand is the
quantifier call and whose right operand is the length comparison (the
two-operand chain `array.every(Boolean) || array.length === 0`) also
produces the Every diagnostic, anchored at the comparison's span. -/
theorem C2_reverse_pair_produces_every_diagnostic
    (s1 s2 s3 s4 s5 s6 s7 : Span) :
    is_useless_check
      (Expression.call s1
        (Expression.staticMember s2 (Expression.identifier s3 "array") "every" false)
        false)
      (Expression.binary s4
        (Expression.staticMember s5 (Expression.identifier s6 "array") "length" false)
        BinaryOperator.strictEquality
        (Expression.numericLiteral s7 "0"))
      LogicalOperator.or
      = some (NoUselessLengthCheckDiagnostic.Every s4) := rfl

/-- C8: on the three-operand flattened disjunction
`array.every(Boolean) || array.length === 0 || array.every(Boolean)` the
driver emits exactly two diagnostics, one per adjacent pair of the
flattened chain, with no early termination after the first match. -/
theorem C8_three_operand_chain_two_diagnostics :
    NoUselessLengthCheck.run threeOperandOrChain =
      [NoUselessLengthCheckDiagnostic.Every ⟨24, 41⟩,
       NoUselessLengthCheckDiagnostic.Every ⟨24, 41⟩] ∧
    (NoUselessLengthCheck.run threeOperandOrChain).length = 2 := by
  exact ⟨by decide, by decide⟩

/-- C10: when a single comparison operand sits between two matching
quantifier calls in a flattened chain, the two emitted diagnostics carry
the identical source span — the comparison's span twice — so the rule can
report duplicate diagnostics at one location for one analyzed node. -/
theorem C10_duplicate_diagnostics_same_span :
    (NoUselessLengthCheck.run threeOperandOrChainB).map NoUselessLengthCheckDiagnostic.span =
      [⟨124, 141⟩, ⟨124, 141⟩] ∧
    NoUselessLengthCheck.run threeOperandOrChainB =
      [NoUselessLengthCheckDiagnostic.Every ⟨124, 141⟩,
       NoUselessLengthCheckDiagnostic.Every ⟨124, 141⟩] := by
  exact ⟨by decide, by decide⟩

/-- C9: flattening any logical-combination node returns at least two
operands, so the driver's adjacent-pair loop bound `flat_expr.len() - 1`
never underflows and every accessed index `i` and `i + 1` stays in bounds. -/
theorem C9_flatten_length_at_least_two (l : Expression) (op : LogicalOperator)
    (r : Expression) :
    2 ≤ (flat_logical_expression l op r).length ∧
    ∀ i : Nat, i < (flat_logical_expression l op r).length - 1 →
      i + 1 < (flat_logical_expression l op r).length := by
  have h2 : 2 ≤ (flat_logical_expression l op r).length := by
    unfold flat_logical_expression
    rw [List.length_append]
    have hl := flat_side_length_pos op l l
    have hr := flat_side_length_pos op r r
    omega
  exact ⟨h2, fun i hi => by omega⟩

/-- Witness for C9 at the concrete chain `foo || bar`. -/
theorem C9_flatten_length_at_least_two_witness :
    2 ≤ (flat_logical_expression sampleLeftOperand LogicalOperator.or
          sampleRightOperand).length ∧
    0 + 1 < (flat_logical_expression sampleLeftOperand LogicalOperator.or
          sampleRightOperand).length :=
  ⟨(C9_flatten_length_at_least_two sampleLeftOperand LogicalOperator.or
      sampleRightOperand).1,
   (C9_flatten_length_at_least_two sampleLeftOperand LogicalOperator.or
      sampleRightOperand).2 0 (by decide)⟩

/-- Classifying a binary-expression operand on the left either aborts or
records that operand's span as the binary-expression span (and no call
span). -/
theorem is_useless_check_left_binary_spans (active : ConditionDTO) (sp : Span)
    (bl : Expression) (bop : BinaryOperator) (br : Expression) :
    is_useless_check_left active (Expression.binary sp bl bop br) = none ∨
    ∃ f n, is_useless_check_left active (Expression.binary sp bl bop br)
        = some (f, n, some sp, none) := by
  unfold is_useless_check_left
  simp only [Expression.without_parenthesized]
  cases bl.get_inner_expression.toMemberExpression with
  | none => exact Or.inl rfl
  | some m =>
    dsimp only
    cases m.object.get_identifier_reference with
    | none => exact Or.inl rfl
    | some n => exact Or.inr ⟨_, _, rfl⟩

/-- Classifying a call-expression operand on the left either aborts or
records that operand's span as the call-expression span (and no binary
span). -/
theorem is_useless_check_left_call_spans (active : ConditionDTO) (sp : Span)
    (callee : Expression) (opt : Bool) :
    is_useless_check_left active (Expression.call sp callee opt) = none ∨
    ∃ f n, is_useless_check_left active (Expression.call sp callee opt)
        = some (f, n, none, some sp) := by
  unfold is_useless_check_left
  simp only [Expression.without_parenthesized]
  cases callee.get_member_expr with
  | none => exact Or.inl rfl
  | some m =>
    dsimp only
    cases m.object.get_identifier_reference with
    | none => exact Or.inl rfl
    | some n =>
      dsimp only
      cases get_static_member_property_name (some m) with
      | none => exact Or.inl rfl
      | some p => exact Or.inr ⟨_, _, rfl⟩

/-- A binary-expression right operand aborts the matcher whenever a binary
expression span was already recorded from the left operand. -/
theorem is_useless_check_right_binary_of_bspan_some (active : ConditionDTO)
    (a : String) (s0 : Span) (csp : Option Span) (sp : Span) (bl : Expression)
    (bop : BinaryOperator) (br : Expression) :
    is_useless_check_right active a (some s0) csp (Expression.binary sp bl bop br)
      = none := by
  unfold is_useless_check_right
  simp only [Expression.without_parenthesized]
  cases bl.get_inner_expression.toMemberExpression with
  | none => rfl
  | some m =>
    dsimp only
    cases m.object.get_identifier_reference with
    | none => rfl
    | some n => simp

/-- A call-expression right operand aborts the matcher whenever a call
expression span was already recorded from the left operand. -/
theorem is_useless_check_right_call_of_cspan_some (active : ConditionDTO)
    (a : String) (bsp : Option Span) (s0 : Span) (sp : Span) (callee : Expression)
    (opt : Bool) :
    is_useless_check_right active a bsp (some s0) (Expression.call sp callee opt)
      = none := by
  unfold is_useless_check_right
  simp only [Expression.without_parenthesized]
  cases callee.get_member_expr with
  | none => rfl
  | some m =>
    dsimp only
    cases m.object.get_identifier_reference with
    | none => rfl
    | some n => simp

/-- C7: a pair whose operands are both binary comparisons, or both calls,
never yields a diagnostic — every match has exactly one comparison operand
and exactly one quantifier-call operand. -/
theorem C7_homogeneous_pairs_produce_nothing (s1 s2 : Span)
    (a1 b1 a2 b2 e1 e2 : Expression) (bop1 bop2 : BinaryOperator) (o1 o2 : Bool)
    (op : LogicalOperator) :
    is_useless_check (Expression.binary s1 a1 bop1 b1)
      (Expression.binary s2 a2 bop2 b2) op = none ∧
    is_useless_check (Expression.call s1 e1 o1) (Expression.call s2 e2 o2) op
      = none := by
  constructor
  · unfold is_useless_check
    rcases is_useless_check_left_binary_spans (active_condition op) s1 a1 bop1 b1 with
      h | ⟨f, n, h⟩
    · simp [h]
    · simp [h, is_useless_check_right_binary_of_bspan_some]
  · unfold is_useless_check
    rcases is_useless_check_left_call_spans (active_condition op) s1 e1 o1 with
      h | ⟨f, n, h⟩
    · simp [h]
    · simp [h, is_useless_check_right_call_of_cspan_some]

/-- An optional-chain wrapper in the right operand always classifies with
flag `false`, keeping the recorded binary-expression span unchanged. -/
theorem is_useless_check_right_chain_eq (active : ConditionDTO) (a : String)
    (bsp csp : Option Span) (s : Span) (inner : Expression) :
    is_useless_check_right active a bsp csp (Expression.chain s inner)
      = some (false, bsp) := rfl

/-- An optional-chain wrapper in the left operand always classifies with
flag `false` and records nothing. -/
theorem is_useless_check_left_chain_eq (active : ConditionDTO) (s : Span)
    (inner : Expression) :
    is_useless_check_left active (Expression.chain s inner)
      = some (false, "", none, none) := rfl

/-- A call made through the optional-call syntax (`optional = true`) in the
right operand never classifies with flag `true`. -/
theorem is_useless_check_right_optional_call_flag (active : ConditionDTO)
    (a : String) (bsp csp : Option Span) (s : Span) (callee : Expression) :
    (is_useless_check_right active a bsp csp (Expression.call s callee true)).elim
      True (fun p => p.1 = false) := by
  unfold is_useless_check_right
  simp only [Expression.without_parenthesized]
  cases callee.get_member_expr with
  | none => trivial
  | some m =>
    dsimp only
    cases m.object.get_identifier_reference with
    | none => trivial
    | some n =>
      dsimp only
      cases csp with
      | some s0 => simp
      | none =>
        simp only [Option.isSome_none, Bool.false_eq_true, if_false]
        cases get_static_member_property_name (some m) with
        | none => trivial
        | some p => simp

/-- A call made through the optional-call syntax (`optional = true`) in the
left operand never classifies with flag `true`. -/
theorem is_useless_check_left_optional_call_flag (active : ConditionDTO)
    (s : Span) (callee : Expression) :
    (is_useless_check_left active (Expression.call s callee true)).elim
      True (fun p => p.1 = false) := by
  unfold is_useless_check_left
  simp only [Expression.without_parenthesized]
  cases callee.get_member_expr with
  | none => trivial
  | some m =>
    dsimp only
    cases m.object.get_identifier_reference with
    | none => trivial
    | some n =>
      dsimp only
      cases get_static_member_property_name (some m) with
      | none => trivial
      | some p => simp

/-- C5: a quantifier call made via optional chaining is immune: whether the
optional access is represented as the parser's chain-expression wrapper or
as a call expression whose optional flag is set, and whichever operand
position it occupies, no diagnostic is produced regardless of the other
operand. -/
theorem C5_optional_chaining_immunity (e : Expression) (op : LogicalOperator)
    (s : Span) (inner callee : Expression) :
    is_useless_check e (Expression.chain s inner) op = none ∧
    is_useless_check (Expression.chain s inner) e op = none ∧
    is_useless_check e (Expression.call s callee true) op = none ∧
    is_useless_check (Expression.call s callee true) e op = none := by
  refine ⟨?_, ?_, ?_, ?_⟩
  · exact is_useless_check_none_of_right _ (fun active a bsp csp => by
      rw [is_useless_check_right_chain_eq]; rfl) e op
  · exact is_useless_check_none_of_left _ (fun active => by
      rw [is_useless_check_left_chain_eq]; rfl) e op
  · exact is_useless_check_none_of_right _ (fun active a bsp csp =>
      is_useless_check_right_optional_call_flag active a bsp csp s callee) e op
  · exact is_useless_check_none_of_left _ (fun active =>
      is_useless_check_left_optional_call_flag active s callee) e op

/-- C4: when the length comparison's subject identifier and the quantifier
call's subject identifier are textually different, no diagnostic is
produced, in either operand order, for any operator, comparator and method
name. -/
theorem C4_subject_mismatch_no_diagnostic (n1 n2 : String) (h : n1 ≠ n2)
    (bop : BinaryOperator) (meth : String) (op : LogicalOperator)
    (s1 s2 s3 s4 s5 s6 s7 : Span) :
    is_useless_check
      (Expression.binary s1
        (Expression.staticMember s2 (Expression.identifier s3 n1) "length" false)
        bop (Expression.numericLiteral s4 "0"))
      (Expression.call s5
        (Expression.staticMember s6 (Expression.identifier s7 n2) meth false) false)
      op = none ∧
    is_useless_check
      (Expression.call s5
        (Expression.staticMember s6 (Expression.identifier s7 n2) meth false) false)
      (Expression.binary s1
        (Expression.staticMember s2 (Expression.identifier s3 n1) "length" false)
        bop (Expression.numericLiteral s4 "0"))
      op = none := by
  have h21 : (n2 == n1) = false := beq_eq_false_iff_ne.mpr (Ne.symm h)
  have h12 : (n1 == n2) = false := beq_eq_false_iff_ne.mpr h
  constructor
  · simp [is_useless_check, is_useless_check_left, is_useless_check_right,
      Expression.without_parenthesized, Expression.get_inner_expression,
      Expression.toMemberExpression, MemberExpression.object,
      Expression.get_identifier_reference, Expression.get_member_expr,
      get_static_member_property_name, h21]
  · simp [is_useless_check, is_useless_check_left, is_useless_check_right,
      Expression.without_parenthesized, Expression.get_inner_expression,
      Expression.toMemberExpression, MemberExpression.object,
      Expression.get_identifier_reference, Expression.get_member_expr,
      get_static_member_property_name, MemberExpression.is_specific_member_access,
      Expression.is_specific_id, h12]

/-- Witness for C4 at `array1.length === 0 || array2.every(Boolean)`. -/
theorem C4_subject_mismatch_no_diagnostic_witness :
    ("array1" : String) ≠ "array2" ∧
    (is_useless_check mismatchComparison mismatchCall LogicalOperator.or = none ∧
     is_useless_check mismatchCall mismatchComparison LogicalOperator.or = none) :=
  ⟨by decide,
   C4_subject_mismatch_no_diagnostic "array1" "array2" (by decide)
     BinaryOperator.strictEquality "every" LogicalOperator.or
     ⟨0, 19⟩ ⟨0, 13⟩ ⟨0, 6⟩ ⟨18, 19⟩ ⟨23, 44⟩ ⟨23, 35⟩ ⟨23, 29⟩⟩

/-- C6: a comparison whose right-hand side's raw source text is anything
other than exactly `0` — another literal or a non-literal expression —
never participates in a match, in either operand order, whatever the other
operand is. -/
theorem C6_literal_exactness (rhs : Expression) (h : rhs.is_raw "0" = false)
    (e : Expression) (name : String) (bop : BinaryOperator) (op : LogicalOperator)
    (s1 s2 s3 : Span) :
    is_useless_check
      (Expression.binary s1
        (Expression.staticMember s2 (Expression.identifier s3 name) "length" false)
        bop rhs) e op = none ∧
    is_useless_check e
      (Expression.binary s1
        (Expression.staticMember s2 (Expression.identifier s3 name) "length" false)
        bop rhs) op = none := by
  constructor
  · apply is_useless_check_none_of_left
    intro active
    simp [is_useless_check_left, Expression.without_parenthesized,
      Expression.get_inner_expression, Expression.toMemberExpression,
      MemberExpression.object, Expression.get_identifier_reference, h]
  · apply is_useless_check_none_of_right
    intro active a bsp csp
    cases bsp with
    | some s0 =>
      simp [is_useless_check_right, Expression.without_parenthesized,
        Expression.get_inner_expression, Expression.toMemberExpression,
        MemberExpression.object, Expression.get_identifier_reference]
    | none =>
      simp [is_useless_check_right, Expression.without_parenthesized,
        Expression.get_inner_expression, Expression.toMemberExpression,
        MemberExpression.object, Expression.get_identifier_reference, h]

/-- Witness for C6 at `array.length === 1 || array.every(Boolean)`. -/
theorem C6_literal_exactness_witness :
    (Expression.numericLiteral ⟨17, 18⟩ "1").is_raw "0" = false ∧
    (is_useless_check oneComparison everyCallOperand LogicalOperator.or = none ∧
     is_useless_check everyCallOperand oneComparison LogicalOperator.or = none) :=
  ⟨by decide,
   C6_literal_exactness (Expression.numericLiteral ⟨17, 18⟩ "1") (by decide)
     everyCallOperand "array" BinaryOperator.strictEquality LogicalOperator.or
     ⟨0, 18⟩ ⟨0, 12⟩ ⟨0, 5⟩⟩

/-- C3: a diagnostic fires only for disjunction with strict-equality and
`every`, or conjunction with strict-inequality or greater-than and `some`;
every other operator/comparator/method combination (nullish coalescing
included) yields no diagnostic. -/
theorem C3_combination_table (op : LogicalOperator) (bop : BinaryOperator)
    (meth : String) :
    NoUselessLengthCheck.run (combinationNode op bop meth) ≠ [] ↔
      ((op = LogicalOperator.or ∧ bop = BinaryOperator.strictEquality ∧ meth = "every") ∨
       (op = LogicalOperator.and ∧
         (bop = BinaryOperator.strictInequality ∨ bop = BinaryOperator.greaterThan) ∧
         meth = "some")) := by
  cases op <;> cases bop <;>
    simp [combinationNode, lengthComparisonNode, quantifierCallNode,
      NoUselessLengthCheck.run, flat_logical_expression, flat_side,
      is_useless_check, is_useless_check_left, is_useless_check_right,
      active_condition, every_condition, some_condition,
      Expression.without_parenthesized, Expression.get_inner_expression,
      Expression.toMemberExpression, MemberExpression.object,
      Expression.get_identifier_reference, Expression.get_member_expr,
      get_static_member_property_name, Expression.is_raw,
      MemberExpression.is_specific_member_access, Expression.is_specific_id,
      List.filterMap, List.range_succ]
  all_goals
    first
    | (by_cases hmeth : meth = "some" <;> simp [hmeth])
    | (by_cases hmeth : meth = "every" <;> simp [hmeth])
